import Mathlib

/-!
Verification of `src/cloud_storage/aws_storage.py` (class `SimpleStorageService`).

Shallow embedding: Python exceptions become an inductive `PyExc` and every
operation returns `Except PyExc _`; the S3 backend becomes an explicit list
of stored objects, the local filesystem a list of (path, content) pairs.
External-library behaviour (boto3 requests, pandas CSV, pickle) that the
wrapper delegates to is modelled explicitly; each such model carries a doc
comment naming the library call it stands for.  Failures of the backend are
injected through optional fault fields of the environment, so claims that
quantify over "every underlying failure cause" quantify over those fields.
-/

/-- Python exception values relevant to the wrapper.  `myException` is the
project's `MyException(cause, sys)` wrapper; `clientError` is botocore's
`ClientError` carrying `e.response["Error"]["Code"]`; `strMsg` is a plain
message used when `MyException` is constructed from a string; `typeError`
and `otherError` stand for the remaining built-in / SDK exceptions. -/
inductive PyExc where
  | clientError (code : String)
  | typeError (msg : String)
  | strMsg (msg : String)
  | otherError (msg : String)
  | myException (cause : PyExc)
deriving DecidableEq, Repr

/-- True exactly when the exception is the wrapper's uniform `MyException`. -/
def isWrapped : PyExc → Bool
  | .myException _ => true
  | _ => false

/-- One stored S3 object: bucket name, key, and its content (bytes are
modelled as the text they encode). -/
structure S3Object where
  bucket : String
  key : String
  content : String
deriving DecidableEq, Repr

/-- The environment an operation runs in: the remote store, the local
filesystem, and injectable failures of each underlying SDK call
(`none` = the call behaves normally, `some e` = the call raises `e`). -/
structure S3Env where
  state : List S3Object
  localfs : List (String × String)
  s3_resource_missing : Bool
  bucketFault : Option PyExc
  listFault : Option PyExc
  headFault : Option PyExc
  putFault : Option PyExc
  uploadFault : Option PyExc
  getFault : Option PyExc
  pickleFault : Option PyExc
deriving Repr

/-- A fault-free environment over a given store and local filesystem. -/
def baseEnv (st : List S3Object) (fs : List (String × String)) : S3Env :=
  ⟨st, fs, false, none, none, none, none, none, none, none⟩

/-- The `except Exception as e: raise MyException(e, sys)` boundary that
wraps whatever escaped the `try` block. -/
def wrap {α : Type} (r : Except PyExc α) : Except PyExc α :=
  match r with
  | .ok a => .ok a
  | .error e => .error (.myException e)

/-- A resolved bucket handle (`s3_resource.Bucket(bucket_name)`). -/
structure BucketRef where
  name : String
deriving DecidableEq, Repr

/-- `get_bucket`: resolves a bucket handle by name; any underlying failure is
re-raised as `MyException` (lines 75-85 of the source). -/
def get_bucket (env : S3Env) (bucket_name : String) : Except PyExc BucketRef :=
  match env.bucketFault with
  | some e => .error (.myException e)
  | none => .ok ⟨bucket_name⟩

/-- Models `bucket.objects.filter(Prefix=s3_key)`: the stored objects of the
bucket whose key starts with the given string. -/
def bucketFilter (st : List S3Object) (bucket_name s3_key : String) : List S3Object :=
  st.filter (fun o => o.bucket == bucket_name && s3_key.toList.isPrefixOf o.key.toList)

/-- `s3_key_path_available`: true iff listing the bucket by the key as prefix
yields at least one object; every failure is wrapped (lines 41-50). -/
def s3_key_path_available (env : S3Env) (bucket_name s3_key : String) : Except PyExc Bool :=
  wrap (do
    let bucket ← get_bucket env bucket_name
    match env.listFault with
    | some e => throw e
    | none => pure (decide (0 < (bucketFilter env.state bucket.name s3_key).length)))

/-- Python value returned by `read_object`: raw bytes, a decoded `str`, or
the seekable text buffer built by `io.StringIO`. -/
inductive PyData where
  | bytes (raw : String)
  | text (s : String)
  | buffer (s : String)
deriving DecidableEq, Repr

/-- The argument `read_object` receives: a boto3 object reference (whose
`get()["Body"].read()` yields the carried outcome), a bare Python string, or
a Python list (as returned by `get_file_object` when the match count is not
one; a list has no `get` attribute). -/
inductive ReadArg where
  | obj (body : Except PyExc String)
  | str (s : String)
  | lst (objs : List S3Object)
deriving Repr

/-- `read_object` (static, lines 52-73).  Returns the result together with
the number of object-body fetches (network reads) performed.  A bare string
hits the `isinstance(object_name, str)` branch and raises
`MyException("Invalid argument...")`, which the surrounding `except` wraps
once more; `StringIO` applied to undecoded bytes raises `TypeError`. -/
def read_object (object_name : ReadArg) (decode : Bool) (make_readable : Bool) :
    Except PyExc PyData × Nat :=
  match object_name with
  | .obj body =>
    match body with
    | .error e => (.error (.myException e), 1)
    | .ok raw =>
      if make_readable then
        if decode then (.ok (.buffer raw), 1)
        else (.error (.myException (.typeError "initial_value must be str or None, not bytes")), 1)
      else if decode then (.ok (.text raw), 1) else (.ok (.bytes raw), 1)
  | .str _ =>
    (.error (.myException (.myException
      (.strMsg "Invalid argument: object_name should be a boto3 Object"))), 0)
  | .lst _ =>
    (.error (.myException (.myException (.strMsg "Invalid argument type for read_object"))), 0)

/-- Result shape of `get_file_object`: the single match directly, or the
whole (possibly empty or multi-element) list. -/
inductive ObjOrList where
  | one (o : S3Object)
  | many (l : List S3Object)
deriving DecidableEq, Repr

/-- `get_file_object` (lines 87-99): lists objects matching the filename as
prefix; `if len(file_objects) == 1` returns the single element, otherwise
the full list; failures wrapped. -/
def get_file_object (env : S3Env) (filename bucket_name : String) :
    Except PyExc ObjOrList :=
  wrap (do
    let bucket ← get_bucket env bucket_name
    match env.listFault with
    | some e => throw e
    | none =>
      match bucketFilter env.state bucket.name filename with
      | [x] => pure (ObjOrList.one x)
      | l => pure (ObjOrList.many l))

/-- Turns a `get_file_object` result into the value handed to `read_object`:
a single match becomes a boto3 object whose body fetch yields its content
(or the injected fetch fault); a list stays a Python list. -/
def object_read_arg (env : S3Env) (x : ObjOrList) : ReadArg :=
  match x with
  | .one o =>
    .obj (match env.getFault with
      | some e => .error e
      | none => .ok o.content)
  | .many l => .lst l

/-- Python truthiness of an optional string: `None` and `""` are falsy
(`f"{model_dir}/{model_name}" if model_dir else model_name`, line 106). -/
def str_truthy : Option String → Bool
  | none => false
  | some s => !(s == "")

/-- The object key `load_model` builds (line 106 of the source). -/
def model_file_key (model_dir : Option String) (model_name : String) : String :=
  if str_truthy model_dir then model_dir.getD "" ++ "/" ++ model_name else model_name

/-- Models `pickle.loads` as an opaque deserializer: it may fail (injected
fault); on success the deserialized model is represented by the raw bytes it
was built from. -/
def pickle_loads (env : S3Env) (raw : String) : Except PyExc String :=
  match env.pickleFault with
  | some e => .error e
  | none => .ok raw

/-- `load_model` (lines 101-113): builds the key, resolves the object,
reads raw bytes (`decode=False`), deserializes; failures wrapped. -/
def load_model (env : S3Env) (model_name bucket_name : String)
    (model_dir : Option String) : Except PyExc String :=
  wrap (do
    let model_file := model_file_key model_dir model_name
    let file_object ← get_file_object env model_file bucket_name
    match (read_object (object_read_arg env file_object) false false).1 with
    | .error e => throw e
    | .ok d =>
      match d with
      | .bytes raw => pickle_loads env raw
      | _ => throw (.typeError "a bytes-like object is required"))

/-- Models the exact-key existence test behind `Object(bucket, key).load()`. -/
def object_exists (st : List S3Object) (bucket key : String) : Bool :=
  st.any (fun o => o.bucket == bucket && o.key == key)

/-- Models `put_object`: S3 overwrites the key, so any stored object with
the same (bucket, key) is replaced by the new one. -/
def put_object_with (st : List S3Object) (bucket key content : String) : List S3Object :=
  st.filter (fun o => !(o.bucket == bucket && o.key == key)) ++ [⟨bucket, key, content⟩]

/-- Models `self.s3_resource.Object(bucket_name, key).load()` (a HEAD
request): succeeds iff the exact key exists, else raises `ClientError` with
code "404"; an injected fault overrides. -/
def head_object (env : S3Env) (bucket key : String) : Except PyExc Unit :=
  match env.headFault with
  | some e => .error e
  | none =>
    if object_exists env.state bucket key then .ok ()
    else .error (.clientError "404")

/-- `create_folder` (lines 115-127): probes `{folder_name}/` with a metadata
fetch inside `try`; only `ClientError` is caught — code "404" triggers
`put_object` of the zero-byte marker (a failure there escapes unwrapped),
any other `ClientError` falls through silently, and a non-`ClientError`
probe failure propagates unwrapped.  Returns the new store and the outcome. -/
def create_folder (env : S3Env) (folder_name bucket_name : String) :
    List S3Object × Except PyExc Unit :=
  match head_object env bucket_name (folder_name ++ "/") with
  | .ok () => (env.state, .ok ())
  | .error e =>
    match e with
    | .clientError code =>
      if code == "404" then
        match env.putFault with
        | some pe => (env.state, .error pe)
        | none => (put_object_with env.state bucket_name (folder_name ++ "/") "", .ok ())
      else (env.state, .ok ())
    | _ => (env.state, .error e)

/-- Local-filesystem lookup: content stored at a path, if any. -/
def lookup_file (fs : List (String × String)) (path : String) : Option String :=
  match fs.find? (fun p => p.1 == path) with
  | some p => some p.2
  | none => none

/-- Models `os.remove`: drops the path from the local filesystem. -/
def remove_file (fs : List (String × String)) (path : String) : List (String × String) :=
  fs.filter (fun p => !(p.1 == path))

/-- Local-filesystem write (overwrite: the path is replaced). -/
def write_file (fs : List (String × String)) (path content : String) :
    List (String × String) :=
  (path, content) :: remove_file fs path

/-- `upload_file` (lines 129-144): checks the resource handle, uploads the
local file's content to the key (`meta.client.upload_file`, which raises if
the local file is missing), then deletes the local file when `remove` is
true; every failure is wrapped.  Returns (new store, new local fs, outcome). -/
def upload_file (env : S3Env) (from_filename to_filename bucket_name : String)
    (remove : Bool) : (List S3Object × List (String × String)) × Except PyExc Unit :=
  if env.s3_resource_missing then
    ((env.state, env.localfs),
      .error (.myException (.myException (.strMsg "s3_resource is not initialized"))))
  else
    match env.uploadFault with
    | some e => ((env.state, env.localfs), .error (.myException e))
    | none =>
      match lookup_file env.localfs from_filename with
      | none =>
        ((env.state, env.localfs), .error (.myException (.otherError "FileNotFoundError")))
      | some content =>
        let st1 := put_object_with env.state bucket_name to_filename content
        if remove then ((st1, remove_file env.localfs from_filename), .ok ())
        else ((st1, env.localfs), .ok ())

/-- Splits a character list at every occurrence of `c` (Python/pandas field
and line splitting); never returns `[]`. -/
def splitCharList (c : Char) : List Char → List (List Char)
  | [] => [[]]
  | x :: xs =>
    if x = c then [] :: splitCharList c xs
    else
      match splitCharList c xs with
      | [] => [[x]]
      | h :: t => (x :: h) :: t

/-- Joins character lists with separator `c` (inverse of `splitCharList`). -/
def joinCharList (c : Char) : List (List Char) → List Char
  | [] => []
  | [x] => x
  | x :: xs => x ++ c :: joinCharList c xs

/-- String-level split on a single character. -/
def pySplit (c : Char) (s : String) : List String :=
  (splitCharList c s.toList).map String.mk

/-- String-level join with a single character separator. -/
def pyJoin (c : Char) (parts : List String) : String :=
  String.mk (joinCharList c (parts.map String.toList))

/-- In-memory table: named columns and rows of optional cells
(`none` is a missing value / NaN). -/
structure Table where
  cols : List String
  rows : List (List (Option String))
deriving DecidableEq, Repr

/-- How `DataFrame.to_csv` renders one cell: a missing value becomes the
empty field, a present value its text. -/
def renderCell : Option String → String
  | none => ""
  | some s => s

/-- Models `DataFrame.to_csv(path, index=False, header=True)`: the header
line then one comma-separated line per row, each line terminated by a
newline. -/
def to_csv_string (t : Table) : String :=
  pyJoin '\n' (pyJoin ',' t.cols :: t.rows.map (fun r => pyJoin ',' (r.map renderCell))) ++ "\n"

/-- How `pandas.read_csv(..., na_values="na")` interprets one data field:
the reserved token "na" and the empty field (a default NA value) become
missing; anything else is kept as text. -/
def naCell (s : String) : Option String :=
  if s == "" || s == "na" then none else some s

/-- Drops the empty line a trailing final newline produces when splitting
file content into lines. -/
def dropTrailingEmpty (lines : List String) : List String :=
  if lines.getLast? == some "" then lines.dropLast else lines

/-- Models `pandas.read_csv(buf, na_values="na")` on the fragment the
wrapper produces: split into lines (dropping the trailing empty line the
final newline creates), the first line is the header, every other line is
split into fields which are NA-converted. -/
def pd_read_csv (content : String) : Table :=
  match dropTrailingEmpty (pySplit '\n' content) with
  | [] => ⟨[], []⟩
  | header :: data => ⟨pySplit ',' header, data.map (fun l => (pySplit ',' l).map naCell)⟩

/-- `upload_df_as_csv` (lines 146-157): serializes the table to the local
path via `to_csv`, then delegates to `upload_file` with the default
`remove=True`; failures wrapped (again). -/
def upload_df_as_csv (env : S3Env) (data_frame : Table)
    (local_filename bucket_filename bucket_name : String) :
    (List S3Object × List (String × String)) × Except PyExc Unit :=
  let fs1 := write_file env.localfs local_filename (to_csv_string data_frame)
  let r := upload_file { env with localfs := fs1 } local_filename bucket_filename bucket_name true
  match r.2 with
  | .ok () => (r.1, .ok ())
  | .error e => (r.1, .error (.myException e))

/-- `get_df_from_object` (lines 159-170): reads the object as decoded,
readable text (`make_readable=True`), parses it as CSV with `na_values="na"`;
failures wrapped (again). -/
def get_df_from_object (env : S3Env) (object_ : ObjOrList) : Except PyExc Table :=
  wrap (
    match (read_object (object_read_arg env object_) true true).1 with
    | .error e => .error e
    | .ok d =>
      match d with
      | .buffer s => .ok (pd_read_csv s)
      | .text s => .ok (pd_read_csv s)
      | .bytes _ => .error (.typeError "cannot parse bytes"))

/-- `read_csv` (lines 172-183): resolves the key to an object reference via
`get_file_object`, then delegates to `get_df_from_object`; failures wrapped. -/
def read_csv (env : S3Env) (filename bucket_name : String) : Except PyExc Table :=
  wrap (do
    let csv_obj ← get_file_object env filename bucket_name
    get_df_from_object env csv_obj)

/-- What one cell becomes after the CSV round trip: the reserved token "na"
collapses to a missing value, everything else is unchanged. -/
def naReduce (c : Option String) : Option String :=
  match c with
  | none => none
  | some s => if s == "na" then none else some s

/-- A cell the plain (unquoted) CSV fragment can carry faithfully: present
values are nonempty and contain neither the field separator nor a newline. -/
def cellClean (c : Option String) : Prop :=
  match c with
  | none => True
  | some s => s ≠ "" ∧ ',' ∉ s.toList ∧ '\n' ∉ s.toList

/-- A column name free of the field separator and of newlines. -/
def colClean (s : String) : Prop :=
  ',' ∉ s.toList ∧ '\n' ∉ s.toList

/-- A store in which no (bucket, key) pair is stored twice (S3 keys are
unique within a bucket). -/
def wellFormedStore (st : List S3Object) : Prop :=
  st.Pairwise (fun a b => ¬(a.bucket = b.bucket ∧ a.key = b.key))

/-- Number of stored objects with exactly this bucket and key. -/
def keyCount (st : List S3Object) (bucket key : String) : Nat :=
  (st.filter (fun o => o.bucket == bucket && o.key == key)).length

/-- Environment whose folder-marker probe fails with a connection error
(not a `ClientError`). -/
def envProbeConn : S3Env :=
  ⟨[], [], false, none, none, some (.otherError "conn"), none, none, none, none⟩

/-- Environment whose folder-marker probe fails with a `ClientError` whose
code is "403" (permission denied), not "404". -/
def envProbe403 : S3Env :=
  ⟨[], [], false, none, none, some (.clientError "403"), none, none, none, none⟩

/-- Environment over an empty store whose `put_object` call fails. -/
def envPutBoom : S3Env :=
  ⟨[], [], false, none, none, none, some (.otherError "boom"), none, none, none⟩

/-- Environment whose bucket resolution fails (misconfiguration). -/
def envBucketBoom : S3Env :=
  ⟨[], [], false, some (.otherError "cfg"), none, none, none, none, none, none⟩

theorem wrap_error {α : Type} (r : Except PyExc α) (e : PyExc)
    (h : wrap r = .error e) : isWrapped e = true := by
  cases r with
  | ok a => simp [wrap] at h
  | error e0 =>
    simp [wrap] at h
    subst h
    rfl

/-- C6: `read_object` applied to a bare Python string always fails with the
(wrapped) invalid-argument error and performs zero object-body fetches, for
every combination of the `decode` and `make_readable` flags. -/
theorem C6_read_object_plain_string (s : String) (decode make_readable : Bool) :
    read_object (ReadArg.str s) decode make_readable =
      (.error (.myException (.myException
        (.strMsg "Invalid argument: object_name should be a boto3 Object"))), 0) := rfl

/-- C10: `read_object` with `decode=False, make_readable=True` never returns
the readable buffer: `StringIO` applied to the undecoded bytes raises
`TypeError`, which the boundary wraps into `MyException` (after the one
body fetch has already happened). -/
theorem C10_buffer_requires_decode (raw : String) :
    read_object (ReadArg.obj (.ok raw)) false true =
      (.error (.myException (.typeError "initial_value must be str or None, not bytes")), 1) := rfl

/-- C5 counterexample: with `model_dir` given as the empty string the code
falls into the falsy branch and builds `"m.pkl"`, not `"/m.pkl"` as the
claim's `{modelDir}/{modelName}` shape demands. -/
theorem C5_counterexample : ¬ (model_file_key (some "") "m.pkl" = "/m.pkl") := by
  decide

/-- C5 amended: `load_model` builds the key `{modelDir}/{modelName}` when
`modelDir` is given and nonempty, and plain `modelName` when it is `None`
or empty (Python truthiness); a fault-free `load_model` then answers from
the object stored under exactly that key. -/
theorem C5_load_model_key (model_name d bucket_name content : String)
    (fs : List (String × String)) (hd : d ≠ "") :
    model_file_key (some d) model_name = d ++ "/" ++ model_name ∧
    model_file_key none model_name = model_name ∧
    model_file_key (some "") model_name = model_name ∧
    load_model (baseEnv [⟨bucket_name, d ++ "/" ++ model_name, content⟩] fs)
      model_name bucket_name (some d) = .ok content := by
  refine ⟨?_, rfl, rfl, ?_⟩
  · simp [model_file_key, str_truthy, hd]
  · simp [load_model, model_file_key, str_truthy, hd, get_file_object, get_bucket, baseEnv,
      bucketFilter, wrap, object_read_arg, read_object, pickle_loads, String.data_append,
      String.toList, List.isPrefixOf_iff_prefix, List.filter_cons, List.filter_nil,
      Bind.bind, Except.bind, Pure.pure, Except.pure]

/-- C5 witness for the amended statement. -/
theorem C5_load_model_key_witness :
    ("models" : String) ≠ "" ∧
    model_file_key (some "models") "m.pkl" = "models" ++ "/" ++ "m.pkl" ∧
    load_model (baseEnv [⟨"b", "models" ++ "/" ++ "m.pkl", "X"⟩] [])
      "m.pkl" "b" (some "models") = .ok "X" := by
  have h := C5_load_model_key "m.pkl" "models" "b" "X" [] (by decide)
  exact ⟨by decide, h.1, h.2.2.2⟩

/-- C2 counterexample: a probe failure that is not a `ClientError` (here a
connection error) is not swallowed — `create_folder` raises it to the
caller (and indeed unwrapped), contradicting "raises nothing". -/
theorem C2_counterexample :
    (create_folder envProbeConn "f" "b").2 = .error (.otherError "conn") ∧
    ¬ ((create_folder envProbeConn "f" "b").2 = .ok ()) := by
  constructor
  · rfl
  · intro h
    simp [create_folder, head_object, envProbeConn] at h

/-- C2 amended: only probe failures that are `ClientError`s with a code
other than "404" are swallowed (normal return, no marker written, nothing
raised); a probe failure that is not a `ClientError` escapes the
`except ClientError` clause and is raised to the caller as-is. -/
theorem C2_probe_failure (env : S3Env) (folder_name bucket_name : String) :
    (∀ code, env.headFault = some (.clientError code) → code ≠ "404" →
      create_folder env folder_name bucket_name = (env.state, .ok ())) ∧
    (∀ e, env.headFault = some e → (∀ code, e ≠ .clientError code) →
      create_folder env folder_name bucket_name = (env.state, .error e)) := by
  constructor
  · intro code hf hcode
    simp [create_folder, head_object, hf, hcode]
  · intro e hf hnc
    cases e with
    | clientError code => exact absurd rfl (hnc code)
    | typeError m => simp [create_folder, head_object, hf]
    | strMsg m => simp [create_folder, head_object, hf]
    | otherError m => simp [create_folder, head_object, hf]
    | myException c => simp [create_folder, head_object, hf]

/-- C2 witness: a "403" probe failure is swallowed on a concrete
environment. -/
theorem C2_probe_failure_witness :
    ("403" : String) ≠ "404" ∧
    create_folder envProbe403 "f" "b" = (envProbe403.state, .ok ()) :=
  ⟨by decide, (C2_probe_failure envProbe403 "f" "b").1 "403" rfl (by decide)⟩

/-- C1 counterexample: in `create_folder`, a failure of the marker write
(`put_object`, issued inside the `except ClientError` clause) escapes the
operation unwrapped — the raised exception is the original cause, not a
`MyException`. -/
theorem C1_counterexample :
    (create_folder envPutBoom "f" "b").2 = .error (.otherError "boom") ∧
    isWrapped (.otherError "boom") = false := ⟨rfl, rfl⟩

/-- C1 amended: every operation of the facade except `create_folder`
surfaces every failure as the uniform `MyException` wrapper; in
`create_folder` the only escaping failures are the underlying causes
themselves (a marker-write failure or a non-`ClientError` probe failure),
raised unwrapped. -/
theorem C1_uniform_wrapping :
    (∀ env b k e, s3_key_path_available env b k = .error e → isWrapped e = true) ∧
    (∀ env b e, get_bucket env b = .error e → isWrapped e = true) ∧
    (∀ arg d m e, (read_object arg d m).1 = .error e → isWrapped e = true) ∧
    (∀ env f b e, get_file_object env f b = .error e → isWrapped e = true) ∧
    (∀ env n b dir e, load_model env n b dir = .error e → isWrapped e = true) ∧
    (∀ env f t b r e, (upload_file env f t b r).2 = .error e → isWrapped e = true) ∧
    (∀ env df l bf b e, (upload_df_as_csv env df l bf b).2 = .error e → isWrapped e = true) ∧
    (∀ env o e, get_df_from_object env o = .error e → isWrapped e = true) ∧
    (∀ env f b e, read_csv env f b = .error e → isWrapped e = true) ∧
    (∀ env f b e, (create_folder env f b).2 = .error e →
      env.putFault = some e ∨ env.headFault = some e) := by
  refine ⟨?_, ?_, ?_, ?_, ?_, ?_, ?_, ?_, ?_, ?_⟩
  · intro env b k e h
    exact wrap_error _ e h
  · intro env b e h
    unfold get_bucket at h
    cases hf : env.bucketFault with
    | none => rw [hf] at h; cases h
    | some e0 => rw [hf] at h; cases h; rfl
  · intro arg d m e h
    cases arg with
    | obj body =>
      cases body with
      | error e0 => cases h; rfl
      | ok raw =>
        cases d <;> cases m
        · cases h
        · cases h; rfl
        · cases h
        · cases h
    | str s => cases h; rfl
    | lst l => cases h; rfl
  · intro env f b e h
    exact wrap_error _ e h
  · intro env n b dir e h
    exact wrap_error _ e h
  · intro env f t b r e h
    unfold upload_file at h
    split at h
    · cases h; rfl
    · split at h
      · cases h; rfl
      · split at h
        · cases h; rfl
        · split at h
          · cases h
          · cases h
  · intro env df l bf b e h
    simp only [upload_df_as_csv] at h
    split at h
    · cases h
    · cases h; rfl
  · intro env o e h
    exact wrap_error _ e h
  · intro env f b e h
    exact wrap_error _ e h
  · intro env f b e h
    unfold create_folder head_object at h
    cases hf : env.headFault with
    | some e1 =>
      rw [hf] at h
      cases e1 with
      | clientError code =>
        by_cases hc : code = "404"
        · subst hc
          simp only [beq_self_eq_true, if_true] at h
          cases hpf : env.putFault with
          | none => rw [hpf] at h; simp at h
          | some pe => rw [hpf] at h; simp at h; subst h; exact Or.inl rfl
        · simp [hc] at h
      | typeError m => simp at h; subst h; exact Or.inr rfl
      | strMsg m => simp at h; subst h; exact Or.inr rfl
      | otherError m => simp at h; subst h; exact Or.inr rfl
      | myException c => simp at h; subst h; exact Or.inr rfl
    | none =>
      rw [hf] at h
      by_cases he : object_exists env.state b (f ++ "/") = true
      · rw [he] at h; simp at h
      · simp only [Bool.not_eq_true] at he
        rw [he] at h
        simp only [Bool.false_eq_true, if_false, beq_self_eq_true, if_true] at h
        cases hpf : env.putFault with
        | none => rw [hpf] at h; simp at h
        | some pe => rw [hpf] at h; simp at h; subst h; exact Or.inl rfl

/-- C1 witness: a concrete misconfiguration failure of
`s3_key_path_available` surfaces wrapped. -/
theorem C1_uniform_wrapping_witness :
    s3_key_path_available envBucketBoom "b" "k" =
      .error (.myException (.myException (.otherError "cfg"))) ∧
    isWrapped (.myException (.myException (.otherError "cfg"))) = true :=
  ⟨rfl, C1_uniform_wrapping.1 envBucketBoom "b" "k" _ rfl⟩

theorem s3_key_path_available_no_fault (env : S3Env) (b k : String)
    (hb : env.bucketFault = none) (hl : env.listFault = none) :
    s3_key_path_available env b k =
      .ok (decide (0 < (bucketFilter env.state b k).length)) := by
  unfold s3_key_path_available get_bucket
  rw [hb, hl]
  rfl

theorem bucketFilter_length_pos_iff (st : List S3Object) (b k : String) :
    0 < (bucketFilter st b k).length ↔
      ∃ o ∈ st, o.bucket = b ∧ k.toList <+: o.key.toList := by
  rw [List.length_pos_iff_exists_mem]
  constructor
  · rintro ⟨o, ho⟩
    rw [bucketFilter, List.mem_filter] at ho
    refine ⟨o, ho.1, ?_⟩
    have h2 := ho.2
    simp only [Bool.and_eq_true, beq_iff_eq, List.isPrefixOf_iff_prefix] at h2
    exact h2
  · rintro ⟨o, ho, hb2, hk⟩
    refine ⟨o, ?_⟩
    rw [bucketFilter, List.mem_filter]
    refine ⟨ho, ?_⟩
    simp only [Bool.and_eq_true, beq_iff_eq, List.isPrefixOf_iff_prefix]
    exact ⟨hb2, hk⟩

/-- C9: under a fault-free backend, `s3_key_path_available` answers `true`
exactly when some stored object of the bucket has the key as a prefix of
its own key, and `false` exactly when none has. -/
theorem C9_exists_under_key_start (env : S3Env) (bucket_name s3_key : String)
    (hb : env.bucketFault = none) (hl : env.listFault = none) :
    (s3_key_path_available env bucket_name s3_key = .ok true ↔
      ∃ o ∈ env.state, o.bucket = bucket_name ∧ s3_key.toList <+: o.key.toList) ∧
    (s3_key_path_available env bucket_name s3_key = .ok false ↔
      ¬ ∃ o ∈ env.state, o.bucket = bucket_name ∧ s3_key.toList <+: o.key.toList) := by
  rw [s3_key_path_available_no_fault env bucket_name s3_key hb hl]
  have hiff := bucketFilter_length_pos_iff env.state bucket_name s3_key
  simp only [Except.ok.injEq, decide_eq_true_eq, decide_eq_false_iff_not]
  exact ⟨hiff, not_congr hiff⟩

/-- C9 witness: one matching object under a prefix of its key. -/
theorem C9_witness :
    s3_key_path_available (baseEnv [⟨"b", "dir/f.csv", "X"⟩] []) "b" "dir" = .ok true :=
  ((C9_exists_under_key_start (baseEnv [⟨"b", "dir/f.csv", "X"⟩] []) "b" "dir" rfl rfl).1).mpr
    ⟨⟨"b", "dir/f.csv", "X"⟩, by simp [baseEnv], rfl, by decide⟩

theorem get_file_object_no_fault (env : S3Env) (f b : String)
    (hb : env.bucketFault = none) (hl : env.listFault = none) :
    get_file_object env f b =
      .ok (match bucketFilter env.state b f with
        | [x] => ObjOrList.one x
        | l => ObjOrList.many l) := by
  cases hm : bucketFilter env.state b f with
  | nil =>
    simp [get_file_object, get_bucket, hb, hl, wrap, Bind.bind, Except.bind,
      Pure.pure, Except.pure, hm]
  | cons x t =>
    cases t with
    | nil =>
      simp [get_file_object, get_bucket, hb, hl, wrap, Bind.bind, Except.bind,
        Pure.pure, Except.pure, hm]
    | cons y t2 =>
      simp [get_file_object, get_bucket, hb, hl, wrap, Bind.bind, Except.bind,
        Pure.pure, Except.pure, hm]

/-- C3: under a fault-free backend, `get_file_object` returns a bare object
reference exactly when exactly one stored object matches the filename as a
key prefix; for every other match count it returns the full list of
matches. -/
theorem C3_single_or_list (env : S3Env) (filename bucket_name : String)
    (hb : env.bucketFault = none) (hl : env.listFault = none) :
    ((bucketFilter env.state bucket_name filename).length = 1 ↔
      ∃ x, get_file_object env filename bucket_name = .ok (ObjOrList.one x)) ∧
    ((bucketFilter env.state bucket_name filename).length ≠ 1 →
      get_file_object env filename bucket_name =
        .ok (ObjOrList.many (bucketFilter env.state bucket_name filename))) := by
  rw [get_file_object_no_fault env filename bucket_name hb hl]
  cases hm : bucketFilter env.state bucket_name filename with
  | nil =>
    refine ⟨?_, fun _ => rfl⟩
    simp
  | cons x t =>
    cases t with
    | nil =>
      refine ⟨?_, fun h => absurd rfl h⟩
      simp
    | cons y t2 =>
      refine ⟨?_, fun _ => rfl⟩
      constructor
      · intro h
        simp at h
      · rintro ⟨x', hx'⟩
        simp at hx'

/-- C3 witness: two matching objects come back as the full list. -/
theorem C3_witness :
    get_file_object (baseEnv [⟨"b", "k1", "X"⟩, ⟨"b", "k2", "Y"⟩] []) "k" "b" =
      .ok (ObjOrList.many (bucketFilter [⟨"b", "k1", "X"⟩, ⟨"b", "k2", "Y"⟩] "b" "k")) :=
  (C3_single_or_list (baseEnv [⟨"b", "k1", "X"⟩, ⟨"b", "k2", "Y"⟩] []) "k" "b" rfl rfl).2
    (by decide)

theorem lookup_file_remove (fs : List (String × String)) (path : String) :
    lookup_file (remove_file fs path) path = none := by
  unfold lookup_file
  have h1 : (remove_file fs path).find? (fun p => p.1 == path) = none := by
    rw [List.find?_eq_none]
    intro x hx
    rw [remove_file, List.mem_filter] at hx
    simpa using hx.2
  rw [h1]

/-- C8: with `remove=true` a successful `upload_file` deletes the local
source file (it is no longer present afterwards); with `remove=false` the
local filesystem — and hence the source file — is left unchanged. -/
theorem C8_upload_file_remove_semantics (env : S3Env)
    (from_filename to_filename bucket_name content : String)
    (hres : env.s3_resource_missing = false) (hu : env.uploadFault = none)
    (hf : lookup_file env.localfs from_filename = some content) :
    (upload_file env from_filename to_filename bucket_name true).2 = .ok () ∧
    lookup_file (upload_file env from_filename to_filename bucket_name true).1.2
      from_filename = none ∧
    (upload_file env from_filename to_filename bucket_name false).1.2 = env.localfs := by
  refine ⟨?_, ?_, ?_⟩ <;>
    simp [upload_file, hres, hu, hf, lookup_file_remove]

/-- C8 witness: uploading a concrete present local file. -/
theorem C8_upload_file_remove_semantics_witness :
    lookup_file [("a.txt", "data")] "a.txt" = some "data" ∧
    (upload_file (baseEnv [] [("a.txt", "data")]) "a.txt" "k" "b" true).2 = .ok () ∧
    lookup_file (upload_file (baseEnv [] [("a.txt", "data")]) "a.txt" "k" "b" true).1.2
      "a.txt" = none ∧
    (upload_file (baseEnv [] [("a.txt", "data")]) "a.txt" "k" "b" false).1.2 =
      [("a.txt", "data")] := by
  have h := C8_upload_file_remove_semantics (baseEnv [] [("a.txt", "data")])
    "a.txt" "k" "b" "data" rfl rfl rfl
  exact ⟨rfl, h.1, h.2.1, h.2.2⟩

theorem keyCount_le_one_of_wf (st : List S3Object) (b k : String)
    (hwf : wellFormedStore st) : keyCount st b k ≤ 1 := by
  induction st with
  | nil => simp [keyCount]
  | cons o t ih =>
    rw [wellFormedStore, List.pairwise_cons] at hwf
    unfold keyCount
    by_cases ho : (o.bucket == b && o.key == k) = true
    · have ht : t.filter (fun o2 => o2.bucket == b && o2.key == k) = [] := by
        rw [List.filter_eq_nil_iff]
        intro a ha hpa
        simp only [Bool.and_eq_true, beq_iff_eq] at ho hpa
        exact hwf.1 a ha ⟨ho.1.trans hpa.1.symm, ho.2.trans hpa.2.symm⟩
      simp [List.filter_cons, ho, ht]
    · simp only [List.filter_cons, ho, if_false]
      exact ih hwf.2

theorem one_le_keyCount_of_exists (st : List S3Object) (b k : String)
    (h : object_exists st b k = true) : 1 ≤ keyCount st b k := by
  unfold object_exists at h
  rw [List.any_eq_true] at h
  obtain ⟨o, ho, hp⟩ := h
  exact List.length_pos_of_mem (List.mem_filter.mpr ⟨ho, hp⟩)

theorem keyCount_put_object (st : List S3Object) (b k c : String) :
    keyCount (put_object_with st b k c) b k = 1 := by
  unfold keyCount put_object_with
  rw [List.filter_append]
  have h1 : (st.filter (fun o => !(o.bucket == b && o.key == k))).filter
      (fun o => o.bucket == b && o.key == k) = [] := by
    rw [List.filter_eq_nil_iff]
    intro a ha hpa
    rw [List.mem_filter] at ha
    rw [hpa] at ha
    simp at ha
  rw [h1]
  simp

theorem object_exists_put (st : List S3Object) (b k c : String) :
    object_exists (put_object_with st b k c) b k = true := by
  unfold object_exists put_object_with
  rw [List.any_append]
  simp

/-- C4: starting from any store with unique (bucket, key) pairs, the first
fault-free `create_folder` succeeds, the second call is a no-op that
changes nothing and raises no error, and afterwards exactly one marker
object is stored at `{folderName}/`. -/
theorem C4_create_folder_idempotent (st : List S3Object) (fs : List (String × String))
    (folder_name bucket_name : String) (hwf : wellFormedStore st) :
    (create_folder (baseEnv st fs) folder_name bucket_name).2 = .ok () ∧
    create_folder (baseEnv (create_folder (baseEnv st fs) folder_name bucket_name).1 fs)
        folder_name bucket_name =
      ((create_folder (baseEnv st fs) folder_name bucket_name).1, .ok ()) ∧
    keyCount (create_folder (baseEnv st fs) folder_name bucket_name).1
      bucket_name (folder_name ++ "/") = 1 := by
  by_cases he : object_exists st bucket_name (folder_name ++ "/") = true
  · have h1 : create_folder (baseEnv st fs) folder_name bucket_name = (st, .ok ()) := by
      unfold create_folder head_object baseEnv
      simp [he]
    rw [h1]
    refine ⟨rfl, ?_, ?_⟩
    · unfold create_folder head_object baseEnv
      simp [he]
    · exact Nat.le_antisymm (keyCount_le_one_of_wf st _ _ hwf)
        (one_le_keyCount_of_exists st _ _ he)
  · have he' : object_exists st bucket_name (folder_name ++ "/") = false := by
      simpa using he
    have h1 : create_folder (baseEnv st fs) folder_name bucket_name =
        (put_object_with st bucket_name (folder_name ++ "/") "", .ok ()) := by
      unfold create_folder head_object baseEnv
      simp [he']
    rw [h1]
    refine ⟨rfl, ?_, keyCount_put_object st _ _ _⟩
    unfold create_folder head_object baseEnv
    simp [object_exists_put st bucket_name (folder_name ++ "/") ""]

/-- C4 witness: creating a folder twice on an initially empty store. -/
theorem C4_create_folder_idempotent_witness :
    (create_folder (baseEnv [] []) "f" "b").2 = .ok () ∧
    create_folder (baseEnv (create_folder (baseEnv [] []) "f" "b").1 []) "f" "b" =
      ((create_folder (baseEnv [] []) "f" "b").1, .ok ()) ∧
    keyCount (create_folder (baseEnv [] []) "f" "b").1 "b" ("f" ++ "/") = 1 :=
  C4_create_folder_idempotent [] [] "f" "b" (by constructor)

theorem splitCharList_no_sep (c : Char) (l : List Char) (h : c ∉ l) :
    splitCharList c l = [l] := by
  induction l with
  | nil => rfl
  | cons x xs ih =>
    rw [List.mem_cons] at h
    push_neg at h
    unfold splitCharList
    rw [if_neg (fun hh => h.1 hh.symm), ih h.2]

theorem splitCharList_append_sep (c : Char) (a rest : List Char) (ha : c ∉ a) :
    splitCharList c (a ++ c :: rest) = a :: splitCharList c rest := by
  induction a with
  | nil => simp [splitCharList]
  | cons x xs ih =>
    rw [List.mem_cons] at ha
    push_neg at ha
    rw [List.cons_append]
    simp only [splitCharList]
    rw [if_neg (fun hh => ha.1 hh.symm), ih ha.2]

theorem splitCharList_joinCharList (c : Char) (parts : List (List Char))
    (hne : parts ≠ []) (hc : ∀ p ∈ parts, c ∉ p) :
    splitCharList c (joinCharList c parts) = parts := by
  induction parts with
  | nil => exact absurd rfl hne
  | cons p ps ih =>
    cases ps with
    | nil =>
      simp only [joinCharList]
      exact splitCharList_no_sep c p (hc p (List.mem_cons_self p []))
    | cons q qs =>
      rw [show joinCharList c (p :: q :: qs) = p ++ c :: joinCharList c (q :: qs) from rfl]
      rw [splitCharList_append_sep c p _ (hc p (List.mem_cons_self p _))]
      rw [ih (List.cons_ne_nil q qs) (fun p' hp' => hc p' (List.mem_cons_of_mem p hp'))]

theorem joinCharList_concat_empty (c : Char) (parts : List (List Char)) (h : parts ≠ []) :
    joinCharList c (parts ++ [[]]) = joinCharList c parts ++ [c] := by
  induction parts with
  | nil => exact absurd rfl h
  | cons p ps ih =>
    cases ps with
    | nil => rfl
    | cons q qs =>
      rw [show (p :: q :: qs) ++ [[]] = p :: ((q :: qs) ++ [[]]) from rfl]
      rw [show joinCharList c (p :: ((q :: qs) ++ [[]])) =
        p ++ c :: joinCharList c ((q :: qs) ++ [[]]) from rfl]
      rw [ih (List.cons_ne_nil q qs)]
      rw [show joinCharList c (p :: q :: qs) = p ++ c :: joinCharList c (q :: qs) from rfl]
      simp [List.cons_append, List.append_assoc]

theorem not_mem_joinCharList (c d : Char) (parts : List (List Char))
    (hd : d ≠ c) (h : ∀ p ∈ parts, d ∉ p) : d ∉ joinCharList c parts := by
  induction parts with
  | nil => simp [joinCharList]
  | cons p ps ih =>
    cases ps with
    | nil =>
      simp only [joinCharList]
      exact h p (List.mem_cons_self p [])
    | cons q qs =>
      rw [show joinCharList c (p :: q :: qs) = p ++ c :: joinCharList c (q :: qs) from rfl]
      intro hmem
      rw [List.mem_append] at hmem
      cases hmem with
      | inl hp => exact h p (List.mem_cons_self p _) hp
      | inr hr =>
        rw [List.mem_cons] at hr
        cases hr with
        | inl he => exact hd he
        | inr hj =>
          exact ih (fun p' hp' => h p' (List.mem_cons_of_mem p hp')) hj

theorem pySplit_pyJoin (c : Char) (parts : List String) (hne : parts ≠ [])
    (hc : ∀ p ∈ parts, c ∉ p.toList) :
    pySplit c (pyJoin c parts) = parts := by
  unfold pySplit pyJoin
  rw [show (String.mk (joinCharList c (parts.map String.toList))).toList
      = joinCharList c (parts.map String.toList) from rfl]
  rw [splitCharList_joinCharList c _ (by simpa using hne)
    (fun p hp => by
      rw [List.mem_map] at hp
      obtain ⟨s, hs, rfl⟩ := hp
      exact hc s hs)]
  rw [List.map_map]
  rw [show (String.mk ∘ String.toList) = id from funext fun s => rfl, List.map_id]

theorem pySplit_join_newline (lines : List String) (hne : lines ≠ [])
    (hc : ∀ p ∈ lines, '\n' ∉ p.toList) :
    pySplit '\n' (pyJoin '\n' lines ++ "\n") = lines ++ [""] := by
  have h1 : pyJoin '\n' lines ++ "\n" = pyJoin '\n' (lines ++ [""]) := by
    unfold pyJoin
    rw [List.map_append]
    rw [show List.map String.toList [""] = [([] : List Char)] from rfl]
    rw [joinCharList_concat_empty '\n' _ (by simpa using hne)]
    rfl
  rw [h1]
  exact pySplit_pyJoin '\n' (lines ++ [""]) (by simp)
    (fun p hp => by
      rw [List.mem_append] at hp
      cases hp with
      | inl h => exact hc p h
      | inr h =>
        rw [List.mem_singleton] at h
        subst h
        simp)

theorem dropTrailingEmpty_concat (lines : List String) :
    dropTrailingEmpty (lines ++ [""]) = lines := by
  unfold dropTrailingEmpty
  rw [List.getLast?_concat]
  simp

theorem naCell_renderCell (cell : Option String) (h : cellClean cell) :
    naCell (renderCell cell) = naReduce cell := by
  cases cell with
  | none => rfl
  | some s =>
    have h0 : (s == "") = false := beq_eq_false_iff_ne.mpr h.1
    simp only [renderCell, naCell, naReduce, h0, Bool.false_or]

theorem pd_read_csv_to_csv_string (t : Table)
    (hcols_ne : t.cols ≠ [])
    (hcols : ∀ s ∈ t.cols, colClean s)
    (hrows : ∀ r ∈ t.rows, r ≠ [] ∧ ∀ cell ∈ r, cellClean cell) :
    pd_read_csv (to_csv_string t) =
      ⟨t.cols, t.rows.map (fun r => r.map naReduce)⟩ := by
  have hrowline : ∀ r ∈ t.rows, '\n' ∉ (pyJoin ',' (r.map renderCell)).toList := by
    intro r hr
    show '\n' ∉ joinCharList ',' ((r.map renderCell).map String.toList)
    refine not_mem_joinCharList ',' '\n' _ (by decide) ?_
    intro p hp
    rw [List.map_map, List.mem_map] at hp
    obtain ⟨cell, hcell, rfl⟩ := hp
    have hcl := (hrows r hr).2 cell hcell
    cases cell with
    | none => simp [renderCell]
    | some s => exact hcl.2.2
  have hheadline : '\n' ∉ (pyJoin ',' t.cols).toList := by
    show '\n' ∉ joinCharList ',' (t.cols.map String.toList)
    refine not_mem_joinCharList ',' '\n' _ (by decide) ?_
    intro p hp
    rw [List.mem_map] at hp
    obtain ⟨s, hs, rfl⟩ := hp
    exact (hcols s hs).2
  have hlines : pySplit '\n' (to_csv_string t) =
      (pyJoin ',' t.cols :: t.rows.map (fun r => pyJoin ',' (r.map renderCell))) ++ [""] := by
    unfold to_csv_string
    refine pySplit_join_newline _ (List.cons_ne_nil _ _) ?_
    intro p hp
    rw [List.mem_cons] at hp
    cases hp with
    | inl h => subst h; exact hheadline
    | inr h =>
      rw [List.mem_map] at h
      obtain ⟨r, hr, rfl⟩ := h
      exact hrowline r hr
  unfold pd_read_csv
  rw [hlines, dropTrailingEmpty_concat]
  have hhead : pySplit ',' (pyJoin ',' t.cols) = t.cols :=
    pySplit_pyJoin ',' t.cols hcols_ne (fun s hs => (hcols s hs).1)
  have hdata : (t.rows.map (fun r => pyJoin ',' (r.map renderCell))).map
      (fun l => (pySplit ',' l).map naCell) = t.rows.map (fun r => r.map naReduce) := by
    rw [List.map_map]
    refine List.map_congr_left ?_
    intro r hr
    show (pySplit ',' (pyJoin ',' (r.map renderCell))).map naCell = r.map naReduce
    have hsplit : pySplit ',' (pyJoin ',' (r.map renderCell)) = r.map renderCell := by
      refine pySplit_pyJoin ',' _ (by simpa using (hrows r hr).1) ?_
      intro p hp
      rw [List.mem_map] at hp
      obtain ⟨cell, hcell, rfl⟩ := hp
      have hcl := (hrows r hr).2 cell hcell
      cases cell with
      | none => simp [renderCell]
      | some s => exact hcl.2.1
    rw [hsplit, List.map_map]
    refine List.map_congr_left ?_
    intro cell hcell
    exact naCell_renderCell cell ((hrows r hr).2 cell hcell)
  show Table.mk (pySplit ',' (pyJoin ',' t.cols))
      ((t.rows.map (fun r => pyJoin ',' (r.map renderCell))).map
        (fun l => (pySplit ',' l).map naCell)) =
    ⟨t.cols, t.rows.map (fun r => r.map naReduce)⟩
  rw [hhead, hdata]

theorem lookup_file_write (fs : List (String × String)) (path content : String) :
    lookup_file (write_file fs path content) path = some content := by
  unfold lookup_file write_file
  rw [List.find?_cons_of_pos _ (by simp)]

theorem upload_file_success (env : S3Env) (f g b c : String) (r : Bool)
    (hres : env.s3_resource_missing = false) (hu : env.uploadFault = none)
    (hf : lookup_file env.localfs f = some c) :
    upload_file env f g b r =
      ((put_object_with env.state b g c,
        if r then remove_file env.localfs f else env.localfs), .ok ()) := by
  unfold upload_file
  rw [hres, hu, hf]
  cases r <;> simp

theorem bucketFilter_put_unique (st : List S3Object) (b k c : String)
    (hpre : ∀ o ∈ st, o.bucket = b → k.toList <+: o.key.toList → o.key = k) :
    bucketFilter (put_object_with st b k c) b k = [⟨b, k, c⟩] := by
  unfold bucketFilter put_object_with
  rw [List.filter_append]
  have h1 : (st.filter (fun o => !(o.bucket == b && o.key == k))).filter
      (fun o => o.bucket == b && k.toList.isPrefixOf o.key.toList) = [] := by
    rw [List.filter_eq_nil_iff]
    intro a ha hpa
    rw [List.mem_filter] at ha
    simp only [Bool.and_eq_true, beq_iff_eq, List.isPrefixOf_iff_prefix] at hpa
    have hk := hpre a ha.1 hpa.1 hpa.2
    have h2 := ha.2
    rw [hpa.1, hk] at h2
    simp at h2
  rw [h1]
  simp [List.isPrefixOf_iff_prefix]

/-- C7: uploading a table as CSV and reading the same key back reproduces
the table's columns and rows, with the reserved token "na" mapping back to
a missing value.  Hypotheses restrict to the CSV-safe fragment the plain
(unquoted) format carries faithfully — nonempty column list, per-row
nonempty cell lists, and cell/column text free of the separator, newlines
and the empty string — and to a backend that is fault-free with no other
object stored under the target key as a prefix. -/
theorem C7_round_trip (env : S3Env) (t : Table)
    (local_filename bucket_filename bucket_name : String)
    (hres : env.s3_resource_missing = false)
    (hb : env.bucketFault = none) (hl : env.listFault = none)
    (hu : env.uploadFault = none) (hg : env.getFault = none)
    (hpre : ∀ o ∈ env.state, o.bucket = bucket_name →
      bucket_filename.toList <+: o.key.toList → o.key = bucket_filename)
    (hcols_ne : t.cols ≠ []) (hcols : ∀ s ∈ t.cols, colClean s)
    (hrows : ∀ r ∈ t.rows, r ≠ [] ∧ ∀ cell ∈ r, cellClean cell) :
    (upload_df_as_csv env t local_filename bucket_filename bucket_name).2 = .ok () ∧
    read_csv { env with
        state := (upload_df_as_csv env t local_filename bucket_filename bucket_name).1.1,
        localfs := (upload_df_as_csv env t local_filename bucket_filename bucket_name).1.2 }
      bucket_filename bucket_name =
      .ok ⟨t.cols, t.rows.map (fun r => r.map naReduce)⟩ := by
  have hup : upload_df_as_csv env t local_filename bucket_filename bucket_name =
      ((put_object_with env.state bucket_name bucket_filename (to_csv_string t),
        remove_file (write_file env.localfs local_filename (to_csv_string t)) local_filename),
       .ok ()) := by
    simp only [upload_df_as_csv]
    rw [upload_file_success
      { env with localfs := write_file env.localfs local_filename (to_csv_string t) }
      local_filename bucket_filename bucket_name (to_csv_string t)
      true hres hu (lookup_file_write env.localfs local_filename (to_csv_string t))]
    rfl
  rw [hup]
  refine ⟨rfl, ?_⟩
  show read_csv { env with
      state := put_object_with env.state bucket_name bucket_filename (to_csv_string t),
      localfs := remove_file (write_file env.localfs local_filename (to_csv_string t))
        local_filename } bucket_filename bucket_name =
    .ok ⟨t.cols, t.rows.map (fun r => r.map naReduce)⟩
  have hgfo : get_file_object { env with
      state := put_object_with env.state bucket_name bucket_filename (to_csv_string t),
      localfs := remove_file (write_file env.localfs local_filename (to_csv_string t))
        local_filename } bucket_filename bucket_name =
      .ok (ObjOrList.one ⟨bucket_name, bucket_filename, to_csv_string t⟩) := by
    rw [get_file_object_no_fault { env with
      state := put_object_with env.state bucket_name bucket_filename (to_csv_string t),
      localfs := remove_file (write_file env.localfs local_filename (to_csv_string t))
        local_filename } bucket_filename bucket_name hb hl]
    rw [show ({ env with
      state := put_object_with env.state bucket_name bucket_filename (to_csv_string t),
      localfs := remove_file (write_file env.localfs local_filename (to_csv_string t))
        local_filename } : S3Env).state
      = put_object_with env.state bucket_name bucket_filename (to_csv_string t) from rfl]
    rw [bucketFilter_put_unique env.state bucket_name bucket_filename (to_csv_string t) hpre]
  have hread : get_df_from_object { env with
      state := put_object_with env.state bucket_name bucket_filename (to_csv_string t),
      localfs := remove_file (write_file env.localfs local_filename (to_csv_string t))
        local_filename } (ObjOrList.one ⟨bucket_name, bucket_filename, to_csv_string t⟩) =
      .ok (pd_read_csv (to_csv_string t)) := by
    unfold get_df_from_object object_read_arg
    rw [show ({ env with
      state := put_object_with env.state bucket_name bucket_filename (to_csv_string t),
      localfs := remove_file (write_file env.localfs local_filename (to_csv_string t))
        local_filename } : S3Env).getFault = none from hg]
    rfl
  unfold read_csv
  rw [hgfo]
  show wrap (get_df_from_object { env with
      state := put_object_with env.state bucket_name bucket_filename (to_csv_string t),
      localfs := remove_file (write_file env.localfs local_filename (to_csv_string t))
        local_filename } (ObjOrList.one ⟨bucket_name, bucket_filename, to_csv_string t⟩)) =
    .ok ⟨t.cols, t.rows.map (fun r => r.map naReduce)⟩
  rw [hread, pd_read_csv_to_csv_string t hcols_ne hcols hrows]
  rfl

/-- C7 witness: a concrete two-row table (one "na" cell) uploaded to an
empty store and read back. -/
theorem C7_round_trip_witness :
    (upload_df_as_csv (baseEnv [] []) ⟨["a"], [[some "1"], [some "na"]]⟩
      "loc.csv" "k.csv" "b").2 = .ok () ∧
    read_csv { baseEnv [] [] with
        state := (upload_df_as_csv (baseEnv [] []) ⟨["a"], [[some "1"], [some "na"]]⟩
          "loc.csv" "k.csv" "b").1.1,
        localfs := (upload_df_as_csv (baseEnv [] []) ⟨["a"], [[some "1"], [some "na"]]⟩
          "loc.csv" "k.csv" "b").1.2 }
      "k.csv" "b" = .ok ⟨["a"], [[some "1"], [none]]⟩ := by
  have h := C7_round_trip (baseEnv [] []) ⟨["a"], [[some "1"], [some "na"]]⟩
    "loc.csv" "k.csv" "b" rfl rfl rfl rfl rfl
    (by intro o ho _ _; simp [baseEnv] at ho)
    (by decide)
    (by
      intro s hs
      rw [List.mem_singleton] at hs
      subst hs
      exact ⟨by decide, by decide⟩)
    (by
      intro r hr
      simp only [List.mem_cons, List.mem_singleton, List.not_mem_nil, or_false] at hr
      cases hr with
      | inl h1 =>
        subst h1
        refine ⟨by decide, ?_⟩
        intro cell hc
        rw [List.mem_singleton] at hc
        subst hc
        exact ⟨by decide, by decide, by decide⟩
      | inr h1 =>
        subst h1
        refine ⟨by decide, ?_⟩
        intro cell hc
        rw [List.mem_singleton] at hc
        subst hc
        exact ⟨by decide, by decide, by decide⟩)
  exact ⟨h.1, h.2⟩
